import Mathlib

/-
Verification of the Adverant Nexus Robotics plugin core against its
natural-language specification.

The development shallowly embeds the two core components of the source:

1. the resilient client (BaseClient.ts): retry with exponential backoff and
   a three-state circuit breaker.  Transport attempts are modelled by an
   environment function giving, for each attempt number, the wall-clock time
   of the attempt and its outcome (2xx success, retryable 5xx/network
   failure, or non-retryable 4xx client failure).  The axios response
   interceptor resets the breaker on every successful response; the error
   interceptor only logs, so it has no state effect and is elided.

2. the civilian mission controller (MissionController in BaseClient.ts
   together with GraphRAGClient / VideoAgentClient): the ReAct loop,
   situation assessment, the action executor, the progress evaluator and
   mission finalization.  Knowledge-store (GraphRAG) writes are modelled as
   an effect trace together with an environment list of Booleans telling
   which write succeeds; real time is modelled by a clock that each loop
   iteration advances by the 100 ms pacing delay.  Latency of external
   calls and the in-handler safety-pause sleep are not modelled.

Machine numbers in the source are JavaScript doubles used only at small
integral / decimal values; they are modelled as ℚ (for sensor values and
importances) and Nat (for times and delays).  JavaScript truthiness tests
on possibly-absent numbers are modelled explicitly on Option ℚ.
-/

namespace Robotics

/-! ## Resilient client: circuit breaker and retry (BaseClient.ts) -/

/-- Circuit breaker state, as in the BaseClient field
    state: CLOSED | OPEN | HALF_OPEN. -/
inductive CBState
  | CLOSED
  | OPEN
  | HALF_OPEN
  deriving DecidableEq, Repr

/-- The circuit breaker record of BaseClient:
    failures, lastFailureTime, state. -/
structure Breaker where
  failures : Nat
  lastFailureTime : Nat
  state : CBState
  deriving DecidableEq, Repr

/-- Breaker as initialized in the BaseClient constructor. -/
def initialBreaker : Breaker :=
  ⟨0, 0, CBState.CLOSED⟩

/-- RetryConfig of BaseClient.ts. -/
structure RetryConfig where
  maxAttempts : Nat
  delayMs : Nat
  backoffMultiplier : Nat
  deriving DecidableEq, Repr

/-- API_CONSTANTS defaults: MAX_RETRY_ATTEMPTS 3, RETRY_DELAY_MS 1000,
    RETRY_BACKOFF_MULTIPLIER 2. -/
def defaultRetryConfig : RetryConfig :=
  ⟨3, 1000, 2⟩

/-- Outcome of a single transport attempt (the awaited requestFn):
    a 2xx response, a retryable failure (5xx / timeout / network), or a
    non-retryable client failure (axios error with truthy status < 500). -/
inductive Outcome
  | ok
  | retryable
  | clientErr
  deriving DecidableEq, Repr

/-- Result of one executeWithRetry call: a successful return, the
    fast-fail CIRCUIT_BREAKER_OPEN error, a propagated 4xx client error,
    or the service error raised after exhausting all attempts. -/
inductive CallResult
  | success
  | breakerOpen
  | clientError
  | serviceError
  deriving DecidableEq, Repr

/-- BaseClient.incrementCircuitBreakerFailure: increment the counter,
    stamp the failure time, and open the breaker at the hardcoded
    threshold 5. -/
def incrementCircuitBreakerFailure (b : Breaker) (now : Nat) : Breaker :=
  { failures := b.failures + 1
    lastFailureTime := now
    state := if 5 ≤ b.failures + 1 then CBState.OPEN else b.state }

/-- BaseClient.resetCircuitBreaker, invoked by the axios response
    interceptor on every successful response. -/
def resetCircuitBreaker (b : Breaker) : Breaker :=
  { b with failures := 0, state := CBState.CLOSED }

/-- Observable trace of one executeWithRetry call: the final breaker, the
    call result, the backoff delays slept between attempts, the number of
    transport attempts actually performed, and the successive breaker
    values after each state mutation (including the OPEN to HALF_OPEN
    adjustment at call entry). -/
structure CallTrace where
  breaker : Breaker
  result : CallResult
  delays : List Nat
  attempts : Nat
  states : List Breaker
  deriving DecidableEq, Repr

/-- The retry loop of executeWithRetry from a given attempt number, with
    rem attempts remaining.  A successful attempt resets the breaker (via
    the response interceptor) and returns; a 4xx failure is rethrown
    immediately without touching the breaker; a retryable failure
    increments the breaker and, if attempts remain, sleeps
    delayMs * backoffMultiplier ^ (attempt - 1) before retrying. -/
def retryFrom (cfg : RetryConfig) (plan : Nat → Nat × Outcome) :
    Nat → Nat → Breaker → CallTrace
  | 0, _, b => ⟨b, CallResult.serviceError, [], 0, []⟩
  | rem + 1, attempt, b =>
    match (plan attempt).2 with
    | Outcome.ok =>
      ⟨resetCircuitBreaker b, CallResult.success, [], 1, [resetCircuitBreaker b]⟩
    | Outcome.clientErr =>
      ⟨b, CallResult.clientError, [], 1, [b]⟩
    | Outcome.retryable =>
      let b2 := incrementCircuitBreakerFailure b (plan attempt).1
      if rem = 0 then
        ⟨b2, CallResult.serviceError, [], 1, [b2]⟩
      else
        let d := cfg.delayMs * cfg.backoffMultiplier ^ (attempt - 1)
        let rest := retryFrom cfg plan rem (attempt + 1) b2
        ⟨rest.breaker, rest.result, d :: rest.delays, rest.attempts + 1,
          b2 :: rest.states⟩

/-- BaseClient.executeWithRetry: if the breaker is OPEN and fewer than
    30000 ms have elapsed since the last failure, fast-fail with the
    breaker-open error and no transport attempt; if 30000 ms have elapsed,
    move to HALF_OPEN and run the retry loop; otherwise run the retry loop
    directly. -/
def executeWithRetry (cfg : RetryConfig) (b : Breaker) (now : Nat)
    (maxAttempts : Nat) (plan : Nat → Nat × Outcome) : CallTrace :=
  if b.state = CBState.OPEN then
    if now - b.lastFailureTime < 30000 then
      ⟨b, CallResult.breakerOpen, [], 0, []⟩
    else
      let b2 := { b with state := CBState.HALF_OPEN }
      let t := retryFrom cfg plan maxAttempts 1 b2
      { t with states := b2 :: t.states }
  else
    retryFrom cfg plan maxAttempts 1 b

/-- One call made against the shared client: its start time, its attempt
    budget (options.retries ?? retryConfig.maxAttempts) and the
    environment of transport outcomes. -/
structure CallSpec where
  now : Nat
  maxAttempts : Nat
  plan : Nat → Nat × Outcome

/-- Successive breaker values over a sequence of calls on one client
    instance. -/
def runCalls (cfg : RetryConfig) : Breaker → List CallSpec → List Breaker
  | _, [] => []
  | b, c :: rest =>
    let t := executeWithRetry cfg b c.now c.maxAttempts c.plan
    t.states ++ runCalls cfg t.breaker rest

/-- The transitions the specification claims for the breaker:
    stay put, CLOSED to OPEN, OPEN to HALF_OPEN, HALF_OPEN to CLOSED,
    HALF_OPEN to OPEN. -/
def claimedStep : CBState → CBState → Bool
  | CBState.CLOSED, CBState.OPEN => true
  | CBState.OPEN, CBState.HALF_OPEN => true
  | CBState.HALF_OPEN, CBState.CLOSED => true
  | CBState.HALF_OPEN, CBState.OPEN => true
  | s, t => s == t

/-- The transitions the code actually performs: the claimed ones plus a
    direct OPEN to CLOSED reset, taken when a retry attempt succeeds after
    the breaker opened mid-call. -/
def observedStep (s t : CBState) : Bool :=
  claimedStep s t || (s == CBState.OPEN && t == CBState.CLOSED)

/-! ## Mission controller data model (MissionController in BaseClient.ts) -/

/-- Object classification taxonomy of shared types, as used by
    mapToObjectClassification. -/
inductive ObjectClassification
  | PERSON
  | VEHICLE
  | BICYCLE
  | ANIMAL
  | BUILDING
  | TREE
  | SIGN
  | TRAFFIC_LIGHT
  | PACKAGE
  | EQUIPMENT
  | INFRASTRUCTURE
  | UNKNOWN
  deriving DecidableEq, Repr

/-- Safety priority assigned by calculateSafetyPriority. -/
inductive SafetyPriority
  | LOW
  | MEDIUM
  | HIGH
  deriving DecidableEq, Repr

/-- Mission status values from MISSION_STATUS_TRANSITIONS in the shared
    constants. -/
inductive MissionStatus
  | PLANNING
  | READY
  | IN_PROGRESS
  | PAUSED
  | COMPLETED
  | FAILED
  | ABORTED
  deriving DecidableEq, Repr

/-- One detection returned by VideoAgentClient.detectObjects (already
    filtered by the 0.7 confidence floor in that client). -/
structure Detection where
  id : Option String
  category : String
  label : String
  confidence : ℚ
  deriving DecidableEq, Repr

/-- Position3D of the shared types. -/
structure Position3D where
  latitude : ℚ
  longitude : ℚ
  altitude : ℚ
  timestamp : Nat
  deriving DecidableEq, Repr

/-- Velocity record built by assessSituation. -/
structure Velocity3D where
  vx : ℚ
  vy : ℚ
  vz : ℚ
  speed : ℚ
  heading : ℚ
  deriving DecidableEq, Repr

/-- Health block of WorldState: battery percentage, temperature and the
    system error list. -/
structure SystemHealth where
  battery : ℚ
  temperature : ℚ
  errors : List String
  deriving DecidableEq, Repr

/-- Environment block of WorldState.  windSpeed and visibility are kept as
    Option ℚ because evaluateProgress guards them with JavaScript
    truthiness tests. -/
structure EnvironmentState where
  windSpeed : Option ℚ
  temperature : ℚ
  humidity : ℚ
  visibility : Option ℚ
  deriving DecidableEq, Repr

/-- TrackedObject as built by assessSituation (the metadata block, which
    nothing reads back, is elided). -/
structure TrackedObject where
  id : String
  position : Position3D
  classification : ObjectClassification
  confidence : ℚ
  priority : SafetyPriority
  firstDetected : Nat
  lastSeen : Nat
  trackingHistory : List Position3D
  deriving DecidableEq, Repr

/-- WorldState snapshot as built by assessSituation. -/
structure WorldState where
  timestamp : Nat
  position : Position3D
  velocity : Velocity3D
  attitude : List ℚ
  obstacles : List String
  trackedObjects : List TrackedObject
  communication : List String
  health : SystemHealth
  environment : EnvironmentState
  deriving DecidableEq, Repr

/-- Weather limits inside mission constraints. -/
structure WeatherLimits where
  maxWindSpeed : Option ℚ
  minVisibility : Option ℚ
  deriving DecidableEq, Repr

/-- Mission constraints read by the controller. -/
structure MissionConstraints where
  safetyDistance : Option ℚ
  batteryReserve : Option ℚ
  maxAltitude : Option ℚ
  weatherLimits : WeatherLimits
  deriving DecidableEq, Repr

/-- A mission objective; only the completion flag is read by the
    controller. -/
structure Objective where
  id : String
  completed : Bool
  deriving DecidableEq, Repr

/-- Mission record handed to executeMission.  The mission type is kept as
    a plain string, as in the source. -/
structure Mission where
  id : String
  name : String
  type : String
  objectives : List Objective
  constraints : MissionConstraints
  status : MissionStatus
  deriving DecidableEq, Repr

/-- JavaScript truthiness of a possibly-absent number: undefined and 0 are
    falsy. -/
def jsTruthy (o : Option ℚ) : Bool :=
  match o with
  | none => false
  | some x => decide (x ≠ 0)

/-- JavaScript expression x || d on a possibly-absent number. -/
def jsOrQ (o : Option ℚ) (d : ℚ) : ℚ :=
  match o with
  | none => d
  | some x => if x = 0 then d else x

/-- MissionController.mapToObjectClassification: case-insensitive exact
    lookup, unmapped categories resolve to UNKNOWN. -/
def mapToObjectClassification (category : String) : ObjectClassification :=
  match category.toLower with
  | "person" => ObjectClassification.PERSON
  | "vehicle" => ObjectClassification.VEHICLE
  | "bicycle" => ObjectClassification.BICYCLE
  | "animal" => ObjectClassification.ANIMAL
  | "building" => ObjectClassification.BUILDING
  | "tree" => ObjectClassification.TREE
  | "sign" => ObjectClassification.SIGN
  | "traffic_light" => ObjectClassification.TRAFFIC_LIGHT
  | "package" => ObjectClassification.PACKAGE
  | "equipment" => ObjectClassification.EQUIPMENT
  | "infrastructure" => ObjectClassification.INFRASTRUCTURE
  | _ => ObjectClassification.UNKNOWN

/-- MissionController.calculateSafetyPriority: person and vehicle HIGH,
    bicycle MEDIUM, all else LOW. -/
def calculateSafetyPriority (category : String) : SafetyPriority :=
  if category.toLower = "person" then SafetyPriority.HIGH
  else if category.toLower = "vehicle" then SafetyPriority.HIGH
  else if category.toLower = "bicycle" then SafetyPriority.MEDIUM
  else SafetyPriority.LOW

/-- MissionController.assessSituation: a stubbed position at the origin,
    tracked objects mapped from the perception detections, and fixed
    telemetry (battery 100, no errors, wind 5, visibility 10000).  The
    parameter now stands for Date.now(); the random component of generated
    object ids is not modelled. -/
def assessSituation (detections : List Detection) (now : Nat) : WorldState :=
  let position : Position3D := ⟨0, 0, 0, now⟩
  let trackedObjects := detections.map (fun d =>
    { id := match d.id with
        | some s => if s = "" then "obj_" ++ toString now else s
        | none => "obj_" ++ toString now
      position := position
      classification := mapToObjectClassification d.category
      confidence := d.confidence
      priority := calculateSafetyPriority d.category
      firstDetected := now
      lastSeen := now
      trackingHistory := [position] : TrackedObject })
  { timestamp := now
    position := position
    velocity := ⟨0, 0, 0, 0, 0⟩
    attitude := [0, 0, 0]
    obstacles := []
    trackedObjects := trackedObjects
    communication := []
    health := ⟨100, 25, []⟩
    environment := ⟨some 5, 20, 60, some 10000⟩ }

/-! ## Progress evaluator -/

/-- Which rule of evaluateProgress produced the returned reason string. -/
inductive EvalReason
  | crowding
  | windExceeded
  | visibilityLow
  | lowBattery
  | systemErrors
  deriving DecidableEq, Repr

/-- The record returned by evaluateProgress. -/
structure Evaluation where
  needsReplanning : Bool
  shouldAbort : Bool
  reason : Option EvalReason
  deriving DecidableEq, Repr

/-- Rule 1 condition: more than 3 HIGH-priority person-classified tracked
    objects. -/
def crowdingDetected (w : WorldState) : Bool :=
  3 < (w.trackedObjects.filter (fun o =>
    o.classification == ObjectClassification.PERSON &&
      o.priority == SafetyPriority.HIGH)).length

/-- Rule 2 condition: windSpeed and maxWindSpeed truthy and
    windSpeed > maxWindSpeed. -/
def windLimitBreached (m : Mission) (w : WorldState) : Bool :=
  jsTruthy w.environment.windSpeed &&
    jsTruthy m.constraints.weatherLimits.maxWindSpeed &&
    decide (m.constraints.weatherLimits.maxWindSpeed.getD 0 <
      w.environment.windSpeed.getD 0)

/-- Rule 3 condition: visibility and minVisibility truthy and
    visibility < minVisibility. -/
def visibilityBelowLimit (m : Mission) (w : WorldState) : Bool :=
  jsTruthy w.environment.visibility &&
    jsTruthy m.constraints.weatherLimits.minVisibility &&
    decide (w.environment.visibility.getD 0 <
      m.constraints.weatherLimits.minVisibility.getD 0)

/-- Rule 4 condition: battery below batteryReserve || 20. -/
def batteryBelowReserve (m : Mission) (w : WorldState) : Bool :=
  decide (w.health.battery < jsOrQ m.constraints.batteryReserve 20)

/-- Rule 5 condition: the system error list is non-empty. -/
def systemErrorsPresent (w : WorldState) : Bool :=
  0 < w.health.errors.length

/-- MissionController.evaluateProgress for a live mission and world state
    (the guard returning abort when either is null is outside the model:
    the loop always has both set when it calls the evaluator). -/
def evaluateProgress (m : Mission) (w : WorldState) : Evaluation :=
  if crowdingDetected w then ⟨true, false, some EvalReason.crowding⟩
  else if windLimitBreached m w then ⟨false, true, some EvalReason.windExceeded⟩
  else if visibilityBelowLimit m w then ⟨false, true, some EvalReason.visibilityLow⟩
  else if batteryBelowReserve m w then ⟨false, true, some EvalReason.lowBattery⟩
  else if systemErrorsPresent w then ⟨true, false, some EvalReason.systemErrors⟩
  else ⟨false, false, none⟩

/-- Modelled from the spec: the six evaluation rules as an ordered list of
    guard / verdict pairs, in the precedence the specification states
    (crowding, wind, visibility, battery, system errors). -/
def specRules (m : Mission) (w : WorldState) : List (Bool × Evaluation) :=
  [ (crowdingDetected w, ⟨true, false, some EvalReason.crowding⟩),
    (windLimitBreached m w, ⟨false, true, some EvalReason.windExceeded⟩),
    (visibilityBelowLimit m w, ⟨false, true, some EvalReason.visibilityLow⟩),
    (batteryBelowReserve m w, ⟨false, true, some EvalReason.lowBattery⟩),
    (systemErrorsPresent w, ⟨true, false, some EvalReason.systemErrors⟩) ]

/-- Modelled from the spec: first match wins, otherwise continue. -/
def firstMatch : List (Bool × Evaluation) → Evaluation
  | [] => ⟨false, false, none⟩
  | (c, e) :: rest => if c then e else firstMatch rest

/-! ## Action executor and knowledge-store effects -/

/-- Kind tag of a GraphRAG episode write performed by the controller. -/
inductive EpisodeKind
  | missionStart
  | action
  | observation
  | replanning
  | inspection
  | dataCollection
  | delivery
  | personDetection
  | safetyPause
  deriving DecidableEq, Repr

/-- A knowledge-store write: storeEpisode with its kind and importance,
    storeMissionResult (a document write), or storePattern. -/
inductive KSWrite
  | episode (kind : EpisodeKind) (importance : ℚ)
  | missionResultDoc (missionId : String)
  | pattern (confidence : ℚ)
  deriving DecidableEq, Repr

/-- Knowledge-store context: the environment tells, in order, whether each
    attempted write succeeds (an exhausted environment means success);
    the trace records the writes that were attempted. -/
structure KSCtx where
  env : List Bool
  trace : List KSWrite
  deriving DecidableEq, Repr

/-- Attempt one knowledge-store write; returns the updated context and
    whether the write succeeded (false models the awaited GraphRAG call
    raising). -/
def ksStore (w : KSWrite) (c : KSCtx) : KSCtx × Bool :=
  match c.env with
  | [] => (⟨[], c.trace ++ [w]⟩, true)
  | b :: rest => (⟨rest, c.trace ++ [w]⟩, b)

/-- Result record returned by the action handlers. -/
structure ActionResult where
  success : Bool
  message : String
  deriving DecidableEq, Repr

/-- MissionController.inspectArea: records an inspection episode
    (importance 0.8) and succeeds.  A failing write propagates, since the
    await is not guarded by any try/catch. -/
def inspectArea (c : KSCtx) : KSCtx × Except Unit ActionResult :=
  match ksStore (KSWrite.episode EpisodeKind.inspection (mkRat 8 10)) c with
  | (c2, true) => (c2, Except.ok ⟨true, "Area inspection completed"⟩)
  | (c2, false) => (c2, Except.error ())

/-- MissionController.collectData: records a data-collection episode
    (importance 0.7) and succeeds; a failing write propagates. -/
def collectData (c : KSCtx) : KSCtx × Except Unit ActionResult :=
  match ksStore (KSWrite.episode EpisodeKind.dataCollection (mkRat 7 10)) c with
  | (c2, true) => (c2, Except.ok ⟨true, "Data collection completed"⟩)
  | (c2, false) => (c2, Except.error ())

/-- MissionController.deliverPackage: with no person-classified tracked
    object the delivery fails softly (success false) and no write is
    attempted; otherwise a delivery episode (importance 0.9) is recorded
    and the delivery succeeds.  A failing write propagates. -/
def deliverPackage (w : WorldState) (c : KSCtx) :
    KSCtx × Except Unit ActionResult :=
  let peopleNearby := w.trackedObjects.filter (fun o =>
    o.classification == ObjectClassification.PERSON)
  if peopleNearby.length = 0 then
    (c, Except.ok ⟨false, "No recipient detected, aborting delivery"⟩)
  else
    match ksStore (KSWrite.episode EpisodeKind.delivery (mkRat 9 10)) c with
    | (c2, true) => (c2, Except.ok ⟨true, "Package delivered successfully"⟩)
    | (c2, false) => (c2, Except.error ())

/-- MissionController.scanForPeople: reports the person-classified objects
    and, when any were found, records a person-detection episode with
    maximum importance 1.0.  A failing write propagates. -/
def scanForPeople (w : WorldState) (c : KSCtx) :
    KSCtx × Except Unit ActionResult :=
  let peopleDetected := w.trackedObjects.filter (fun o =>
    o.classification == ObjectClassification.PERSON)
  if 0 < peopleDetected.length then
    match ksStore (KSWrite.episode EpisodeKind.personDetection 1) c with
    | (c2, true) =>
      (c2, Except.ok ⟨true,
        "Scan complete: " ++ toString peopleDetected.length ++ " people detected"⟩)
    | (c2, false) => (c2, Except.error ())
  else
    (c, Except.ok ⟨true,
      "Scan complete: " ++ toString peopleDetected.length ++ " people detected"⟩)

/-- MissionController.pauseForSafety: records a safety-pause episode
    (importance 0.8), holds for the fixed 5 s (not modelled) and succeeds.
    A failing write propagates. -/
def pauseForSafety (c : KSCtx) : KSCtx × Except Unit ActionResult :=
  match ksStore (KSWrite.episode EpisodeKind.safetyPause (mkRat 8 10)) c with
  | (c2, true) => (c2, Except.ok ⟨true, "Safety pause completed"⟩)
  | (c2, false) => (c2, Except.error ())

/-- MissionController.executeAction: first records the action episode
    (importance 0.7) with an unguarded await, then dispatches on the
    action type string; unknown types yield success false.  Any failing
    knowledge-store write makes the call raise (Except.error). -/
def executeAction (actionType : String) (w : WorldState) (c : KSCtx) :
    KSCtx × Except Unit ActionResult :=
  match ksStore (KSWrite.episode EpisodeKind.action (mkRat 7 10)) c with
  | (c1, false) => (c1, Except.error ())
  | (c1, true) =>
    match actionType with
    | "continue_path" => (c1, Except.ok ⟨true, "Continuing on planned path"⟩)
    | "avoid_obstacle" =>
      (c1, Except.ok ⟨true, "Obstacle avoidance maneuver executed"⟩)
    | "inspect_area" => inspectArea c1
    | "collect_data" => collectData c1
    | "deliver_package" => deliverPackage w c1
    | "scan_for_people" => scanForPeople w c1
    | "return_to_base" => (c1, Except.ok ⟨true, "Returning to base"⟩)
    | "pause_for_safety" => pauseForSafety c1
    | "abort" => (c1, Except.ok ⟨false, "Mission aborted"⟩)
    | _ => (c1, Except.ok ⟨false, "Unknown action"⟩)

/-! ## Mission loop orchestrator -/

/-- Per-iteration environment: the perception detections of the REASON
    assessment, the reasoning decision (none models
    makeStrategicDecision raising) and the detections of the OBSERVE
    re-assessment. -/
structure IterEnv where
  detections1 : List Detection
  decision : Option String
  detections2 : List Detection
  deriving DecidableEq, Repr

/-- State at exit of the ReAct while-loop. -/
structure LoopOut where
  mission : Mission
  iteration : Nat
  ctx : KSCtx
  clock : Nat
  worldState : Option WorldState
  failed : Bool
  deriving DecidableEq, Repr

/-- MissionController.isMissionComplete: all objectives completed, or
    status already ABORTED or FAILED. -/
def isMissionComplete (m : Mission) : Bool :=
  m.objectives.all (fun o => o.completed) ||
    m.status == MissionStatus.ABORTED || m.status == MissionStatus.FAILED

/-- The ReAct while-loop of executeMission, with the remaining iteration
    budget as fuel (maxIterations is 50).  Each iteration assesses,
    plans, acts, re-assesses, records the observation episode, evaluates,
    optionally records a replanning episode, aborts on an abort verdict,
    and otherwise sleeps 100 ms (the clock advance) and continues.  Any
    raising step marks the loop failed, to be wrapped by executeMission. -/
def reactLoop (envF : Nat → IterEnv) :
    Nat → Nat → Mission → Option WorldState → KSCtx → Nat → LoopOut
  | 0, iter, m, ws, c, clk => ⟨m, iter, c, clk, ws, false⟩
  | fuel + 1, iter, m, ws, c, clk =>
    if isMissionComplete m then ⟨m, iter, c, clk, ws, false⟩
    else
      let e := envF (iter + 1)
      let st := assessSituation e.detections1 clk
      match e.decision with
      | none => ⟨m, iter + 1, c, clk, some st, true⟩
      | some dec =>
        match executeAction dec st c with
        | (c1, Except.error _) => ⟨m, iter + 1, c1, clk, some st, true⟩
        | (c1, Except.ok _) =>
          let st2 := assessSituation e.detections2 clk
          match ksStore (KSWrite.episode EpisodeKind.observation (mkRat 5 10)) c1 with
          | (c2, false) => ⟨m, iter + 1, c2, clk, some st2, true⟩
          | (c2, true) =>
            let ev := evaluateProgress m st2
            if ev.needsReplanning then
              match ksStore (KSWrite.episode EpisodeKind.replanning (mkRat 8 10)) c2 with
              | (c3, false) => ⟨m, iter + 1, c3, clk, some st2, true⟩
              | (c3, true) =>
                if ev.shouldAbort then
                  ⟨{ m with status := MissionStatus.ABORTED }, iter + 1, c3,
                    clk, some st2, false⟩
                else
                  reactLoop envF fuel (iter + 1) m (some st2) c3 (clk + 100)
            else
              if ev.shouldAbort then
                ⟨{ m with status := MissionStatus.ABORTED }, iter + 1, c2,
                  clk, some st2, false⟩
              else
                reactLoop envF fuel (iter + 1) m (some st2) c2 (clk + 100)

/-- The MissionResult assembled by finalizeMission (distance and energy
    placeholders and the lessons list are elided; duration is in
    seconds). -/
structure MissionResult where
  missionId : String
  status : MissionStatus
  objectivesCompleted : Nat
  objectivesTotal : Nat
  duration : ℚ
  deriving DecidableEq, Repr

/-- MissionController.finalizeMission, pure part: read the current status
    into the result and compute duration and objective counts. -/
def finalizeMission (m : Mission) (startTime endTime : Nat) : MissionResult :=
  ⟨m.id, m.status, (m.objectives.filter (fun o => o.completed)).length,
    m.objectives.length, mkRat (endTime - startTime : Nat) 1000⟩

/-- How one executeMission invocation ends: a returned MissionResult, the
    raw error raised when the pre-loop mission-start write fails (outside
    the try block, so the status is untouched), or the MissionError raised
    from the catch block after the status was set to FAILED. -/
inductive ExecOutcome
  | ok (result : MissionResult)
  | preTryError
  | missionError
  deriving DecidableEq, Repr

/-- Observable result of executeMission: the final mission record, the
    outcome, the number of loop iterations performed and the
    knowledge-store write trace. -/
structure ExecOut where
  mission : Mission
  outcome : ExecOutcome
  iterations : Nat
  trace : List KSWrite
  deriving DecidableEq, Repr

/-- MissionController.executeMission: store the mission-start episode
    (importance 0.9, before the try block), run the ReAct loop, then
    finalize: build the result from the current status, persist it via
    storeMissionResult, and persist a success pattern only when the status
    is COMPLETED.  Any failure inside the try block sets the status to
    FAILED and raises a MissionError. -/
def executeMission (m : Mission) (envF : Nat → IterEnv) (ksEnv : List Bool)
    (t0 : Nat) : ExecOut :=
  match ksStore (KSWrite.episode EpisodeKind.missionStart (mkRat 9 10)) ⟨ksEnv, []⟩ with
  | (c1, false) => ⟨m, ExecOutcome.preTryError, 0, c1.trace⟩
  | (c1, true) =>
    let lo := reactLoop envF 50 0 m none c1 t0
    if lo.failed then
      ⟨{ lo.mission with status := MissionStatus.FAILED },
        ExecOutcome.missionError, lo.iteration, lo.ctx.trace⟩
    else
      let result := finalizeMission lo.mission t0 lo.clock
      match ksStore (KSWrite.missionResultDoc lo.mission.id) lo.ctx with
      | (c2, false) =>
        ⟨{ lo.mission with status := MissionStatus.FAILED },
          ExecOutcome.missionError, lo.iteration, c2.trace⟩
      | (c2, true) =>
        if result.status == MissionStatus.COMPLETED then
          match ksStore (KSWrite.pattern (mkRat 9 10)) c2 with
          | (c3, false) =>
            ⟨{ lo.mission with status := MissionStatus.FAILED },
              ExecOutcome.missionError, lo.iteration, c3.trace⟩
          | (c3, true) => ⟨lo.mission, ExecOutcome.ok result, lo.iteration, c3.trace⟩
        else
          ⟨lo.mission, ExecOutcome.ok result, lo.iteration, c2.trace⟩

/-! ## Concrete fixtures used by counterexamples and witnesses -/

/-- Constraints with every optional field absent. -/
def defaultConstraints : MissionConstraints :=
  ⟨none, none, none, ⟨none, none⟩⟩

/-- A delivery mission whose single objective is already completed,
    submitted with status IN_PROGRESS. -/
def missionAllDone : Mission :=
  ⟨"m-1", "demo", "delivery", [⟨"o1", true⟩], defaultConstraints,
    MissionStatus.IN_PROGRESS⟩

/-- A delivery mission with one incomplete objective. -/
def missionRunning : Mission :=
  ⟨"m-2", "demo", "delivery", [⟨"o1", false⟩], defaultConstraints,
    MissionStatus.IN_PROGRESS⟩

/-- Iteration environment with empty perception results and a
    continue-path decision every iteration. -/
def envContinue : Nat → IterEnv :=
  fun _ => ⟨[], some "continue_path", []⟩

/-- World state produced by an assessment that saw nothing. -/
def emptyWorld : WorldState :=
  assessSituation [] 0

/-- All-retryable transport environment with attempt k happening at
    time k. -/
def planAllFail : Nat → Nat × Outcome :=
  fun k => (k, Outcome.retryable)

/-- Transport environment whose first two attempts fail retryably (at
    times 4 and 5) and whose third attempt succeeds. -/
def planFailFailOk : Nat → Nat × Outcome :=
  fun k => if k ≤ 2 then (3 + k, Outcome.retryable) else (6, Outcome.ok)

/-- Inspection mission with a 3 m/s wind limit and the default battery
    reserve. -/
def windyMission : Mission :=
  ⟨"m-3", "windy", "inspection", [⟨"o1", false⟩],
    ⟨none, none, none, ⟨some 3, none⟩⟩, MissionStatus.IN_PROGRESS⟩

/-- World state with wind 10 m/s and battery 15 percent: both the wind
    rule and the battery rule of the evaluator are triggered. -/
def windyWorld : WorldState :=
  ⟨0, ⟨0, 0, 0, 0⟩, ⟨0, 0, 0, 0, 0⟩, [0, 0, 0], [], [], [],
    ⟨15, 25, []⟩, ⟨some 10, 20, 60, some 10000⟩⟩

/-! ## Helper lemmas for the circuit-breaker transition relation -/

lemma observedStep_refl (s : CBState) : observedStep s s = true := by
  cases s <;> rfl

lemma observedStep_to_CLOSED (s : CBState) :
    observedStep s CBState.CLOSED = true := by
  cases s <;> rfl

lemma observedStep_to_OPEN (s : CBState) :
    observedStep s CBState.OPEN = true := by
  cases s <;> rfl

lemma observedStep_increment (b : Breaker) (t : Nat) :
    observedStep b.state (incrementCircuitBreakerFailure b t).state = true := by
  unfold incrementCircuitBreakerFailure
  dsimp only
  split
  · exact observedStep_to_OPEN b.state
  · exact observedStep_refl b.state

/-- The breaker relation whose chains we track: successive breaker
    snapshots are linked by an observed state transition. -/
def breakerStep (x y : Breaker) : Prop :=
  observedStep x.state y.state = true

lemma chain_retryFrom (cfg : RetryConfig) (plan : Nat → Nat × Outcome) :
    ∀ rem attempt b,
      List.Chain breakerStep b (retryFrom cfg plan rem attempt b).states := by
  intro rem
  induction rem with
  | zero => intro attempt b; exact List.Chain.nil
  | succ n ih =>
    intro attempt b
    simp only [retryFrom]
    split
    · exact List.Chain.cons (observedStep_to_CLOSED b.state) List.Chain.nil
    · exact List.Chain.cons (observedStep_refl b.state) List.Chain.nil
    · split
      · exact List.Chain.cons (observedStep_increment b _) List.Chain.nil
      · exact List.Chain.cons (observedStep_increment b _) (ih (attempt + 1) _)

lemma retryFrom_breaker_last (cfg : RetryConfig) (plan : Nat → Nat × Outcome) :
    ∀ rem attempt b,
      ((retryFrom cfg plan rem attempt b).states).getLastD b =
        (retryFrom cfg plan rem attempt b).breaker := by
  intro rem
  induction rem with
  | zero => intro attempt b; rfl
  | succ n ih =>
    intro attempt b
    simp only [retryFrom]
    split
    · rfl
    · rfl
    · split
      · rfl
      · rw [List.getLastD_cons]
        exact ih (attempt + 1) _

lemma chain_executeWithRetry (cfg : RetryConfig) (b : Breaker) (now mA : Nat)
    (plan : Nat → Nat × Outcome) :
    List.Chain breakerStep b (executeWithRetry cfg b now mA plan).states := by
  unfold executeWithRetry
  split
  · split
    · exact List.Chain.nil
    · rename_i hOpen _
      refine List.Chain.cons ?_ (chain_retryFrom cfg plan mA 1 _)
      show observedStep b.state CBState.HALF_OPEN = true
      rw [hOpen]; rfl
  · exact chain_retryFrom cfg plan mA 1 b

lemma executeWithRetry_breaker_last (cfg : RetryConfig) (b : Breaker)
    (now mA : Nat) (plan : Nat → Nat × Outcome) :
    ((executeWithRetry cfg b now mA plan).states).getLastD b =
      (executeWithRetry cfg b now mA plan).breaker := by
  unfold executeWithRetry
  split
  · split
    · rfl
    · rw [List.getLastD_cons]
      exact retryFrom_breaker_last cfg plan mA 1 _
  · exact retryFrom_breaker_last cfg plan mA 1 b

lemma chain_append_getLastD {α : Type} (R : α → α → Prop) :
    ∀ (l₁ : List α) (a : α) (l₂ : List α),
      List.Chain R a l₁ → List.Chain R (l₁.getLastD a) l₂ →
        List.Chain R a (l₁ ++ l₂) := by
  intro l₁
  induction l₁ with
  | nil => intro a l₂ _ h2; simpa using h2
  | cons x l ih =>
    intro a l₂ h1 h2
    cases h1 with
    | cons hax hxl =>
      rw [List.getLastD_cons] at h2
      exact List.Chain.cons hax (ih x l₂ hxl h2)

/-! ## Claim C2: circuit-breaker transition invariant -/

/-- C2 counterexample: the claim that the breaker never moves OPEN to
    CLOSED directly fails.  Starting from a fresh breaker, a call whose
    three attempts all fail retryably (failures 1..3) followed by a call
    whose first two attempts fail retryably (failures 4 and 5, opening the
    breaker mid-call) and whose third attempt succeeds produces the state
    sequence CLOSED, CLOSED, CLOSED, CLOSED, OPEN, CLOSED: positions 4 and
    5 are an adjacent OPEN to CLOSED transition with no HALF_OPEN between,
    a transition the claim excludes. -/
theorem c2_counterexample :
    ((runCalls defaultRetryConfig initialBreaker
        [⟨0, 3, planAllFail⟩, ⟨10, 3, planFailFailOk⟩]).map
          (fun b => b.state) =
      [CBState.CLOSED, CBState.CLOSED, CBState.CLOSED, CBState.CLOSED,
        CBState.OPEN, CBState.CLOSED]) ∧
      claimedStep CBState.OPEN CBState.CLOSED = false := by
  exact ⟨by decide, by decide⟩

/-- C2 amended: along every sequence of calls on a single client, adjacent
    breaker states are linked by CLOSED to OPEN, OPEN to HALF_OPEN,
    HALF_OPEN to CLOSED, HALF_OPEN to OPEN, staying put, or additionally
    the direct OPEN to CLOSED reset that occurs when a transport attempt
    succeeds after the breaker opened mid-call. -/
theorem c2_transitions_amended (cfg : RetryConfig) (b : Breaker)
    (calls : List CallSpec) :
    List.Chain breakerStep b (runCalls cfg b calls) := by
  induction calls generalizing b with
  | nil => exact List.Chain.nil
  | cons c rest ih =>
    simp only [runCalls]
    refine chain_append_getLastD breakerStep _ b _
      (chain_executeWithRetry cfg b c.now c.maxAttempts c.plan) ?_
    rw [executeWithRetry_breaker_last cfg b c.now c.maxAttempts c.plan]
    exact ih _

/-! ## Claim C6: 4xx failures propagate without retry or breaker effect -/

/-- C6: a non-retryable client failure at any reachable point of the retry
    loop (any attempt number, any current breaker) propagates immediately:
    the result is the client error, exactly that one transport attempt is
    made, no retry delay is slept, and the breaker is returned exactly as
    it was before that failure.  The second conjunct lifts this to a whole
    executeWithRetry call whose first attempt fails with a 4xx. -/
theorem c6_client_error_frame :
    (∀ (cfg : RetryConfig) (plan : Nat → Nat × Outcome) (rem attempt : Nat)
        (b : Breaker), 1 ≤ rem → (plan attempt).2 = Outcome.clientErr →
      retryFrom cfg plan rem attempt b =
        ⟨b, CallResult.clientError, [], 1, [b]⟩) ∧
    (∀ (cfg : RetryConfig) (plan : Nat → Nat × Outcome) (mA now : Nat)
        (b : Breaker), b.state ≠ CBState.OPEN → 1 ≤ mA →
        (plan 1).2 = Outcome.clientErr →
      executeWithRetry cfg b now mA plan =
        ⟨b, CallResult.clientError, [], 1, [b]⟩) := by
  have base : ∀ (cfg : RetryConfig) (plan : Nat → Nat × Outcome)
      (rem attempt : Nat) (b : Breaker),
      1 ≤ rem → (plan attempt).2 = Outcome.clientErr →
      retryFrom cfg plan rem attempt b =
        ⟨b, CallResult.clientError, [], 1, [b]⟩ := by
    intro cfg plan rem attempt b hrem hplan
    cases rem with
    | zero => exact absurd hrem (by decide)
    | succ n => simp [retryFrom, hplan]
  refine ⟨base, ?_⟩
  intro cfg plan mA now b hb hmA hplan
  unfold executeWithRetry
  rw [if_neg hb]
  exact base cfg plan mA 1 b hmA hplan

/-- C6 witness: concrete instance at attempt 1 of a 3-attempt budget with
    a fresh breaker. -/
theorem c6_witness :
    (1:Nat) ≤ 3 ∧
      retryFrom defaultRetryConfig (fun k => (k, Outcome.clientErr)) 3 1
          initialBreaker =
        ⟨initialBreaker, CallResult.clientError, [], 1, [initialBreaker]⟩ :=
  ⟨by decide,
    c6_client_error_frame.1 defaultRetryConfig
      (fun k => (k, Outcome.clientErr)) 3 1 initialBreaker (by decide) rfl⟩

/-! ## Claim C7: backoff delay sequence -/

/-- C7: with the default configuration (maxAttempts 3, base delay 1000 ms,
    multiplier 2) and a run of retryable failures starting from a CLOSED
    breaker, exactly the delays 1000 ms and 2000 ms are slept between the
    three attempts, and no delay follows the final attempt (the delay list
    has just those two entries while three transport attempts happen). -/
theorem c7_backoff_delays (b : Breaker) (now : Nat)
    (plan : Nat → Nat × Outcome) (hb : b.state = CBState.CLOSED)
    (hplan : ∀ k, (plan k).2 = Outcome.retryable) :
    (executeWithRetry defaultRetryConfig b now 3 plan).delays =
        [1000, 2000] ∧
      (executeWithRetry defaultRetryConfig b now 3 plan).attempts = 3 ∧
      (executeWithRetry defaultRetryConfig b now 3 plan).result =
        CallResult.serviceError := by
  have hOpen : b.state ≠ CBState.OPEN := by rw [hb]; decide
  unfold executeWithRetry
  rw [if_neg hOpen]
  simp [retryFrom, hplan 1, hplan 2, hplan 3, defaultRetryConfig]

/-- C7 witness: the delay sequence at a fresh breaker and the all-failure
    transport environment. -/
theorem c7_witness :
    (executeWithRetry defaultRetryConfig initialBreaker 0 3 planAllFail).delays =
        [1000, 2000] ∧
      (executeWithRetry defaultRetryConfig initialBreaker 0 3
          planAllFail).attempts = 3 ∧
      (executeWithRetry defaultRetryConfig initialBreaker 0 3
          planAllFail).result = CallResult.serviceError :=
  c7_backoff_delays initialBreaker 0 planAllFail rfl (fun _ => rfl)

/-! ## Claim C5: breaker timeline at threshold 5 and reset timeout 30 s -/

/-- C5: after five consecutive retryable failures (at times 1..5) the
    breaker is OPEN with lastFailureTime 5; every call started strictly
    before time 30005 fast-fails with the breaker-open result and zero
    transport attempts whatever its transport environment would have done;
    a call at or after time 30005 is let through via HALF_OPEN (a
    transport attempt happens) and on first-attempt success the counter
    resets to 0 and the breaker closes, while a call whose attempts all
    fail retryably leaves the breaker OPEN with its failure timestamp
    restarted at the time of the last new failure. -/
theorem c5_breaker_timeline :
    (∀ plan0 : Nat → Nat × Outcome,
        (∀ k, plan0 k = (k, Outcome.retryable)) →
      executeWithRetry defaultRetryConfig initialBreaker 0 5 plan0 =
        ⟨⟨5, 5, CBState.OPEN⟩, CallResult.serviceError,
          [1000, 2000, 4000, 8000], 5,
          [⟨1, 1, CBState.CLOSED⟩, ⟨2, 2, CBState.CLOSED⟩,
            ⟨3, 3, CBState.CLOSED⟩, ⟨4, 4, CBState.CLOSED⟩,
            ⟨5, 5, CBState.OPEN⟩]⟩) ∧
    (∀ (t : Nat) (plan : Nat → Nat × Outcome), t < 30005 →
      executeWithRetry defaultRetryConfig ⟨5, 5, CBState.OPEN⟩ t 3 plan =
        ⟨⟨5, 5, CBState.OPEN⟩, CallResult.breakerOpen, [], 0, []⟩) ∧
    (∀ (t : Nat) (plan : Nat → Nat × Outcome), 30005 ≤ t →
        (plan 1).2 = Outcome.ok →
      executeWithRetry defaultRetryConfig ⟨5, 5, CBState.OPEN⟩ t 3 plan =
        ⟨⟨0, 5, CBState.CLOSED⟩, CallResult.success, [], 1,
          [⟨5, 5, CBState.HALF_OPEN⟩, ⟨0, 5, CBState.CLOSED⟩]⟩) ∧
    (∀ (t : Nat) (plan : Nat → Nat × Outcome), 30005 ≤ t →
        (∀ k, plan k = (t + k, Outcome.retryable)) →
      executeWithRetry defaultRetryConfig ⟨5, 5, CBState.OPEN⟩ t 3 plan =
        ⟨⟨8, t + 3, CBState.OPEN⟩, CallResult.serviceError, [1000, 2000], 3,
          [⟨5, 5, CBState.HALF_OPEN⟩, ⟨6, t + 1, CBState.OPEN⟩,
            ⟨7, t + 2, CBState.OPEN⟩, ⟨8, t + 3, CBState.OPEN⟩]⟩) := by
  refine ⟨?_, ?_, ?_, ?_⟩
  · intro plan0 h
    have hfun : plan0 = fun k => (k, Outcome.retryable) := funext h
    subst hfun
    decide
  · intro t plan ht
    have hlt : t - 5 < 30000 := by omega
    simp [executeWithRetry, hlt]
  · intro t plan ht hplan
    have hge : ¬ (t - 5 < 30000) := by omega
    simp [executeWithRetry, hge, retryFrom, hplan, resetCircuitBreaker]
  · intro t plan ht hplan
    have hge : ¬ (t - 5 < 30000) := by omega
    simp [executeWithRetry, hge, retryFrom, hplan 1, hplan 2, hplan 3,
      incrementCircuitBreakerFailure, defaultRetryConfig]

/-- C5 witness: the timeline at concrete times 6 (fast-fail) and 30005
    (half-open success, and half-open run of failures). -/
theorem c5_witness :
    (executeWithRetry defaultRetryConfig initialBreaker 0 5 planAllFail).breaker =
        ⟨5, 5, CBState.OPEN⟩ ∧
      executeWithRetry defaultRetryConfig ⟨5, 5, CBState.OPEN⟩ 6 3
          planAllFail =
        ⟨⟨5, 5, CBState.OPEN⟩, CallResult.breakerOpen, [], 0, []⟩ ∧
      executeWithRetry defaultRetryConfig ⟨5, 5, CBState.OPEN⟩ 30005 3
          (fun k => (k, Outcome.ok)) =
        ⟨⟨0, 5, CBState.CLOSED⟩, CallResult.success, [], 1,
          [⟨5, 5, CBState.HALF_OPEN⟩, ⟨0, 5, CBState.CLOSED⟩]⟩ ∧
      executeWithRetry defaultRetryConfig ⟨5, 5, CBState.OPEN⟩ 30005 3
          (fun k => (30005 + k, Outcome.retryable)) =
        ⟨⟨8, 30005 + 3, CBState.OPEN⟩, CallResult.serviceError,
          [1000, 2000], 3,
          [⟨5, 5, CBState.HALF_OPEN⟩, ⟨6, 30005 + 1, CBState.OPEN⟩,
            ⟨7, 30005 + 2, CBState.OPEN⟩, ⟨8, 30005 + 3, CBState.OPEN⟩]⟩ := by
  refine ⟨?_, ?_, ?_, ?_⟩
  · rw [c5_breaker_timeline.1 planAllFail (fun _ => rfl)]
  · exact c5_breaker_timeline.2.1 6 planAllFail (by decide)
  · exact c5_breaker_timeline.2.2.1 30005 (fun k => (k, Outcome.ok))
      (by decide) rfl
  · exact c5_breaker_timeline.2.2.2 30005
      (fun k => (30005 + k, Outcome.retryable)) (by decide) (fun _ => rfl)

/-! ## Claim C3: evaluator precedence -/

/-- C3: the progress evaluator is exactly the first-match evaluation of
    the six rules in the order crowding, wind, visibility, battery, system
    errors, continue; in particular, whenever the wind limit is breached
    and the battery is below reserve while the crowding rule does not
    fire, the verdict is the wind abort, not the battery abort; and a
    battery verdict can only be returned when the wind rule did not
    fire. -/
theorem c3_evaluator_precedence :
    (∀ (m : Mission) (w : WorldState),
      evaluateProgress m w = firstMatch (specRules m w)) ∧
    (∀ (m : Mission) (w : WorldState),
      crowdingDetected w = false → windLimitBreached m w = true →
        batteryBelowReserve m w = true →
        evaluateProgress m w = ⟨false, true, some EvalReason.windExceeded⟩) ∧
    (∀ (m : Mission) (w : WorldState),
      (evaluateProgress m w).reason = some EvalReason.lowBattery →
        windLimitBreached m w = false) := by
  refine ⟨?_, ?_, ?_⟩
  · intro m w
    rfl
  · intro m w h1 h2 _
    simp [evaluateProgress, h1, h2]
  · intro m w h
    by_cases h1 : crowdingDetected w = true
    · simp [evaluateProgress, h1] at h
    · by_cases h2 : windLimitBreached m w = true
      · simp [evaluateProgress, h1, h2] at h
      · simpa using h2

/-- C3 witness: with wind 10 against limit 3 and battery 15 against the
    default reserve 20, the verdict is the wind abort. -/
theorem c3_witness :
    crowdingDetected windyWorld = false ∧
      windLimitBreached windyMission windyWorld = true ∧
      batteryBelowReserve windyMission windyWorld = true ∧
      evaluateProgress windyMission windyWorld =
        ⟨false, true, some EvalReason.windExceeded⟩ :=
  ⟨by decide, by decide, by decide,
    c3_evaluator_precedence.2.1 windyMission windyWorld (by decide)
      (by decide) (by decide)⟩

/-! ## Claim C8: deliver-package with no recipient -/

/-- C8: against a world state with zero person-classified tracked objects,
    deliverPackage returns success false with the missing-recipient
    message rather than raising, and leaves the knowledge-store context
    untouched (no delivery write is attempted). -/
theorem c8_deliver_no_recipient (w : WorldState) (c : KSCtx)
    (h : (w.trackedObjects.filter (fun o =>
      o.classification == ObjectClassification.PERSON)).length = 0) :
    deliverPackage w c =
      (c, Except.ok ⟨false, "No recipient detected, aborting delivery"⟩) := by
  simp [deliverPackage, h]

/-- C8 witness: delivery against the empty world state. -/
theorem c8_witness :
    ((emptyWorld.trackedObjects.filter (fun o =>
        o.classification == ObjectClassification.PERSON)).length = 0) ∧
      deliverPackage emptyWorld ⟨[], []⟩ =
        (⟨[], []⟩, Except.ok ⟨false, "No recipient detected, aborting delivery"⟩) :=
  ⟨by decide, c8_deliver_no_recipient emptyWorld ⟨[], []⟩ (by decide)⟩

/-! ## Claim C10: fixed telemetry of assessed snapshots -/

/-- C10: every snapshot built by assessSituation carries position
    (0,0,0), battery 100 with an empty error list, wind 5 and visibility
    10000, independently of the perception detections; consequently, when
    the battery reserve resolves to the default 20, the evaluator can
    return neither the low-battery reason nor the system-errors reason on
    an assessed snapshot. -/
theorem c10_assess_fixed_telemetry :
    (∀ (dets : List Detection) (t : Nat),
      (assessSituation dets t).position = ⟨0, 0, 0, t⟩ ∧
        (assessSituation dets t).health = ⟨100, 25, []⟩ ∧
        (assessSituation dets t).environment = ⟨some 5, 20, 60, some 10000⟩) ∧
    (∀ (m : Mission) (dets : List Detection) (t : Nat),
      jsOrQ m.constraints.batteryReserve 20 = 20 →
      (evaluateProgress m (assessSituation dets t)).reason ≠
          some EvalReason.lowBattery ∧
        (evaluateProgress m (assessSituation dets t)).reason ≠
          some EvalReason.systemErrors) := by
  constructor
  · intro dets t
    exact ⟨rfl, rfl, rfl⟩
  · intro m dets t hres
    have hbat : batteryBelowReserve m (assessSituation dets t) = false := by
      have hb : (assessSituation dets t).health.battery = 100 := rfl
      unfold batteryBelowReserve
      rw [hb, hres]
      decide
    have herr : systemErrorsPresent (assessSituation dets t) = false := by
      have he : (assessSituation dets t).health.errors = [] := rfl
      unfold systemErrorsPresent
      rw [he]
      rfl
    unfold evaluateProgress
    rw [hbat, herr]
    split_ifs <;> simp_all

/-- C10 witness: an empty perception result at time 0 against a mission
    with no explicit battery reserve. -/
theorem c10_witness :
    ((assessSituation [] 0).position = ⟨0, 0, 0, 0⟩ ∧
        (assessSituation [] 0).health = ⟨100, 25, []⟩ ∧
        (assessSituation [] 0).environment = ⟨some 5, 20, 60, some 10000⟩) ∧
      ((evaluateProgress missionRunning (assessSituation [] 0)).reason ≠
          some EvalReason.lowBattery ∧
        (evaluateProgress missionRunning (assessSituation [] 0)).reason ≠
          some EvalReason.systemErrors) :=
  ⟨c10_assess_fixed_telemetry.1 [] 0,
    c10_assess_fixed_telemetry.2 missionRunning [] 0 rfl⟩

/-! ## Claim C1: knowledge-store write failures in the action executor -/

/-- C1 counterexample: a knowledge-store write failure is not ignored.
    The same continue-path invocation of executeAction raises when its
    episode write fails and succeeds when the write succeeds, so the
    handler outcome does depend on the write and the failure propagates
    out of the executor. -/
theorem c1_counterexample :
    (executeAction "continue_path" emptyWorld ⟨[false], []⟩).2 =
        Except.error () ∧
      (executeAction "continue_path" emptyWorld ⟨[true], []⟩).2 =
        Except.ok ⟨true, "Continuing on planned path"⟩ :=
  ⟨rfl, rfl⟩

/-- C1 amended: a knowledge-store write failure during executeAction is
    not caught anywhere: whenever the episode write performed at the start
    of every invocation raises, the whole handler raises, whatever the
    action and world state; and inside the mission loop such a failure
    makes the mission fail (status FAILED, MissionError outcome), as the
    concrete run with the second write failing shows. -/
theorem c1_ks_failure_propagates :
    (∀ (actionType : String) (w : WorldState) (rest : List Bool)
        (tr : List KSWrite),
      (executeAction actionType w ⟨false :: rest, tr⟩).2 = Except.error ()) ∧
      (executeMission missionRunning envContinue [true, false] 0).outcome =
          ExecOutcome.missionError ∧
        (executeMission missionRunning envContinue
            [true, false] 0).mission.status = MissionStatus.FAILED := by
  refine ⟨?_, by decide, by decide⟩
  intro actionType w rest tr
  rfl

/-! ## Claim C4: pre-completed missions -/

/-- C4 counterexample: a mission whose objectives are all pre-marked
    completed does terminate after zero loop iterations, but its returned
    status is not COMPLETED: executeMission never assigns COMPLETED, so
    the result carries the status the mission already had (here
    IN_PROGRESS). -/
theorem c4_counterexample :
    (executeMission missionAllDone envContinue [] 0).iterations = 0 ∧
      (executeMission missionAllDone envContinue [] 0).outcome =
        ExecOutcome.ok ⟨"m-1", MissionStatus.IN_PROGRESS, 1, 1, 0⟩ ∧
      MissionStatus.IN_PROGRESS ≠ MissionStatus.COMPLETED :=
  ⟨by decide, by decide, by decide⟩

/-- The loop exits immediately when the mission is already complete. -/
lemma reactLoop_complete (envF : Nat → IterEnv) (fuel iter : Nat)
    (m : Mission) (ws : Option WorldState) (c : KSCtx) (clk : Nat)
    (h : isMissionComplete m = true) :
    reactLoop envF fuel iter m ws c clk = ⟨m, iter, c, clk, ws, false⟩ := by
  cases fuel with
  | zero => rfl
  | succ n => simp [reactLoop, h]

/-- C4 amended: for a mission whose objectives are all completed before
    invocation (with all knowledge-store writes succeeding), the loop body
    runs zero times, the model duration is zero, and the returned result
    carries the status the mission held at invocation - it is COMPLETED
    only if the mission was already COMPLETED, not as an assignment made
    by executeMission. -/
theorem c4_zero_iterations (m : Mission) (envF : Nat → IterEnv) (t0 : Nat)
    (h : ∀ o ∈ m.objectives, o.completed = true) :
    (executeMission m envF [] t0).iterations = 0 ∧
      (executeMission m envF [] t0).outcome =
        ExecOutcome.ok (finalizeMission m t0 t0) ∧
      (finalizeMission m t0 t0).duration = 0 ∧
      (finalizeMission m t0 t0).status = m.status := by
  have hall : m.objectives.all (fun o => o.completed) = true :=
    List.all_eq_true.mpr h
  have hcomp : isMissionComplete m = true := by
    unfold isMissionComplete
    rw [hall]
    rfl
  have hdur : (finalizeMission m t0 t0).duration = 0 := by
    unfold finalizeMission
    show mkRat ((t0 - t0 : Nat) : Int) 1000 = 0
    rw [Nat.sub_self]
    rfl
  refine ⟨?_, ?_, hdur, rfl⟩ <;>
    simp [executeMission, ksStore, reactLoop_complete _ _ _ _ _ _ _ hcomp] <;>
    split <;> simp

/-- C4 witness: the amended statement at the concrete pre-completed
    delivery mission. -/
theorem c4_witness :
    (executeMission missionAllDone envContinue [] 0).iterations = 0 ∧
      (executeMission missionAllDone envContinue [] 0).outcome =
        ExecOutcome.ok (finalizeMission missionAllDone 0 0) ∧
      (finalizeMission missionAllDone 0 0).duration = 0 ∧
      (finalizeMission missionAllDone 0 0).status = missionAllDone.status :=
  c4_zero_iterations missionAllDone envContinue 0 (by decide)

/-! ## Claim C9: executeMission never assigns COMPLETED -/

/-- The loop leaves the mission record unchanged except possibly for a
    single status mutation to ABORTED on an abort verdict. -/
lemma reactLoop_mission_cases (envF : Nat → IterEnv) :
    ∀ (fuel iter : Nat) (m : Mission) (ws : Option WorldState) (c : KSCtx)
      (clk : Nat),
      (reactLoop envF fuel iter m ws c clk).mission = m ∨
        (reactLoop envF fuel iter m ws c clk).mission =
          { m with status := MissionStatus.ABORTED } := by
  intro fuel
  induction fuel with
  | zero => intro iter m ws c clk; exact Or.inl rfl
  | succ n ih =>
    intro iter m ws c clk
    simp only [reactLoop]
    split
    · exact Or.inl rfl
    · split
      · exact Or.inl rfl
      · split
        · exact Or.inl rfl
        · split
          · exact Or.inl rfl
          · split
            · split
              · exact Or.inl rfl
              · split
                · exact Or.inr rfl
                · exact ih (iter + 1) m _ _ (clk + 100)
            · split
              · exact Or.inr rfl
              · exact ih (iter + 1) m _ _ (clk + 100)

/-- C9: executeMission performs no status mutation to COMPLETED.  When it
    returns a result, the result status is the final mission status and is
    either the status the mission held at invocation or ABORTED; a
    MissionError outcome means the status was set to FAILED; the raw
    pre-try write failure leaves the mission untouched; and the final
    status can only be COMPLETED if it already was at invocation. -/
theorem c9_status_invariant (m : Mission) (envF : Nat → IterEnv)
    (ksEnv : List Bool) (t0 : Nat) :
    (∀ res, (executeMission m envF ksEnv t0).outcome = ExecOutcome.ok res →
      res.status = (executeMission m envF ksEnv t0).mission.status ∧
        (res.status = m.status ∨ res.status = MissionStatus.ABORTED)) ∧
    ((executeMission m envF ksEnv t0).outcome = ExecOutcome.missionError →
      (executeMission m envF ksEnv t0).mission.status = MissionStatus.FAILED) ∧
    ((executeMission m envF ksEnv t0).outcome = ExecOutcome.preTryError →
      (executeMission m envF ksEnv t0).mission = m) ∧
    ((executeMission m envF ksEnv t0).mission.status = MissionStatus.COMPLETED →
      m.status = MissionStatus.COMPLETED) := by
  unfold executeMission
  rcases hks : ksStore (KSWrite.episode EpisodeKind.missionStart (mkRat 9 10))
      ⟨ksEnv, []⟩ with ⟨c1, b1⟩
  clear hks
  cases b1 with
  | false =>
    exact ⟨fun res hres => ExecOutcome.noConfusion hres,
      fun hres => ExecOutcome.noConfusion hres,
      fun _ => rfl, fun h => h⟩
  | true =>
    dsimp only
    rcases reactLoop_mission_cases envF 50 0 m none c1 t0 with hm | hm
    all_goals (
      split
      · exact ⟨fun res hres => ExecOutcome.noConfusion hres,
          fun _ => rfl,
          fun hres => ExecOutcome.noConfusion hres,
          fun hcon => MissionStatus.noConfusion hcon⟩
      · split
        · exact ⟨fun res hres => ExecOutcome.noConfusion hres,
            fun _ => rfl,
            fun hres => ExecOutcome.noConfusion hres,
            fun hcon => MissionStatus.noConfusion hcon⟩
        · split
          · split
            · exact ⟨fun res hres => ExecOutcome.noConfusion hres,
                fun _ => rfl,
                fun hres => ExecOutcome.noConfusion hres,
                fun hcon => MissionStatus.noConfusion hcon⟩
            · refine ⟨?_, fun hres => ExecOutcome.noConfusion hres,
                fun hres => ExecOutcome.noConfusion hres, ?_⟩
              · intro res hres
                injection hres with h2
                subst h2
                refine ⟨rfl, ?_⟩
                rw [hm]
                first
                | exact Or.inl rfl
                | exact Or.inr rfl
              · intro hcon
                rw [hm] at hcon
                first
                | exact hcon
                | exact MissionStatus.noConfusion hcon
          · refine ⟨?_, fun hres => ExecOutcome.noConfusion hres,
              fun hres => ExecOutcome.noConfusion hres, ?_⟩
            · intro res hres
              injection hres with h2
              subst h2
              refine ⟨rfl, ?_⟩
              rw [hm]
              first
              | exact Or.inl rfl
              | exact Or.inr rfl
            · intro hcon
              rw [hm] at hcon
              first
              | exact hcon
              | exact MissionStatus.noConfusion hcon)

/-- C9 witness: a run of the completed-objectives mission returns its
    original IN_PROGRESS status unchanged. -/
theorem c9_witness :
    ((⟨"m-1", MissionStatus.IN_PROGRESS, 1, 1, 0⟩ : MissionResult).status =
        (executeMission missionAllDone envContinue [] 0).mission.status ∧
      ((⟨"m-1", MissionStatus.IN_PROGRESS, 1, 1, 0⟩ : MissionResult).status =
          missionAllDone.status ∨
        (⟨"m-1", MissionStatus.IN_PROGRESS, 1, 1, 0⟩ : MissionResult).status =
          MissionStatus.ABORTED)) :=
  (c9_status_invariant missionAllDone envContinue [] 0).1
    ⟨"m-1", MissionStatus.IN_PROGRESS, 1, 1, 0⟩ (by decide)

end Robotics
